import Mathlib

/-!
A shallow embedding of the HonkyPy cipher-engine family
(`src/honkypy/dctx.py`, `src/honkypy/__init__.py`, `src/honkypy/error.py`,
`src/honkypy/key_tables.py`) and proofs about the claims of its
specification.

Conventions of the embedding:
* Python byte values are `Nat` (a valid byte is `< 256`); byte strings are
  `List Nat`.
* Python's unbounded signed integers are `Int` where a value can go
  negative (stream positions, the `version` argument), otherwise `Nat`.
  Masking `& 0xFFFFFFFF` of a nonnegative value is `&&& 0xFFFFFFFF`;
  Python `//` on `Int` is `Int.fdiv` (floor division) and Python `%` is
  Lean's `%` on `Int` (Euclidean remainder — identical to Python's
  floored remainder for the positive moduli used here).
* Python exceptions are modelled with `Except Error`; the class hierarchy
  of `error.py` (every HonkyPy error derives from `ValueError`) is
  reflected by `Error.isValueError`, with `Error.indexError` standing for
  Python's built-in `IndexError` raised by out-of-range list indexing,
  which is not a `ValueError`.
* The repository imports `util.calculate_md5`, whose file is not among the
  sources; it is modelled from the spec, with the MD5 primitive taken as
  an abstract function parameter (the spec treats MD5 as an external
  collaborator).
-/

namespace HonkyPy

/-- A Python byte value; valid bytes are `< 256`. -/
abbrev Byte := Nat

/-- `class _LCGKeys` of `dctx.py`: one linear-congruential-generator
parameter triple. -/
structure LCGKeys where
  a : Nat
  c : Nat
  shift : Nat
deriving DecidableEq

/-- `_LCGKeys.next`: `(x * self.a + self.c) & 0xFFFFFFFF`. -/
def LCGKeys.next (k : LCGKeys) (x : Nat) : Nat :=
  (x * k.a + k.c) &&& 0xFFFFFFFF

/-- `_V4_LCG_PARAM` of `dctx.py`: the four fixed LCG parameter sets. -/
def V4_LCG_PARAM : List LCGKeys :=
  [⟨1103515245, 12345, 15⟩, ⟨22695477, 1, 23⟩, ⟨214013, 2531011, 24⟩, ⟨65793, 4282663, 8⟩]

/-- The exceptions of `error.py`, plus Python's built-in `IndexError`
(raised by out-of-range list indexing, e.g. `_V4_LCG_PARAM[i]` for
`i > 3`). -/
inductive Error where
  | noSuitableMode
  | insufficientHeaderData
  | versionOutOfRange
  | versionUnsupported (v : String)
  | keyTablesMissing
  | invalidGameType (g : String)
  | invalidHeader (v : String)
  | nameSumMismatch
  | indexError
deriving DecidableEq

/-- Whether an exception is caught by `except ValueError`.  Every class of
`error.py` derives from `HonkyPyError(ValueError)`; Python's `IndexError`
derives from `LookupError`, not `ValueError`. -/
def Error.isValueError : Error → Bool
  | .indexError => false
  | _ => true

/-- Python `(~x) & 0xFF` for a nonnegative `x` (two's-complement bitwise
 complement, then masked to the low byte). -/
def pyNot8 (x : Nat) : Byte :=
  (((-(x : Int) - 1)) % 256).toNat

/-- Python `(~x) & 0xFFFFFFFF` for a nonnegative `x`. -/
def pyNot32 (x : Nat) : Nat :=
  (((-(x : Int) - 1)) % 4294967296).toNat

/-- The basename of a path: everything after the last `'/'` byte (47).
Used by the spec-modelled `calculate_md5`. -/
def basenameOf (filename : List Byte) : List Byte :=
  filename.foldl (fun acc b => if b = 47 then [] else acc ++ [b]) []

/-- Modelled from the spec: the repository's `util.calculate_md5`
(module `honkypy.util`, not present among the source files) computes
`digest = MD5(prefix ++ basename(filename))`, where `basename` strips any
directory component, and yields the digest together with the basename.
The MD5 primitive is an external collaborator, so it is the abstract
function parameter `md5`. -/
def calculate_md5 (md5 : List Byte → List Byte) (pfx filename : List Byte) :
    List Byte × List Byte :=
  let basename := basenameOf filename
  (md5 (pfx ++ basename), basename)

/-! ## Version 1 (`class Version1Context`) -/

/-- The mutable state of `Version1Context`. -/
structure V1State where
  update_key : Nat
  init_key : Nat
  xor_key : Nat
  pos : Int
deriving DecidableEq

/-- `Version1Context.__init__` (it ignores `key_tables` and
`header_test`, and never raises). -/
def Version1Context.init (md5 : List Byte → List Byte) (pfx filename : List Byte) :
    V1State :=
  let pr := calculate_md5 md5 pfx filename
  let digest := pr.1
  let basename := pr.2
  let init_key := ((digest.getD 0 0) <<< 24) ||| ((digest.getD 1 0) <<< 16) |||
      ((digest.getD 2 0) <<< 8) ||| digest.getD 3 0
  { update_key := (basename.length &&& 0x3F) + 1
    init_key := init_key
    xor_key := init_key
    pos := 0 }

/-- `Version1Context._step`. -/
def V1State.step (s : V1State) : V1State :=
  { s with xor_key := (s.xor_key + s.update_key) &&& 0xFFFFFFFF }

/-- `n` applications of `Version1Context._step`. -/
def V1State.stepN (s : V1State) : Nat → V1State
  | 0 => s
  | n + 1 => s.step.stepN n

/-- `Version1Context.decrypt_int`: result plus the updated state. -/
def V1State.decrypt_int (s : V1State) (data : Nat) : Nat × V1State :=
  let index := ((s.pos % 4).toNat)
  let key := (s.xor_key >>> ((3 - index) * 8)) &&& 0xFF
  let result := data ^^^ key
  let s := if index = 3 then s.step else s
  (result, { s with pos := s.pos + 1 })

/-- `DecrypterContext.decrypt_block` specialised to V1. -/
def V1State.decrypt_block (s : V1State) : List Nat → List Nat × V1State
  | [] => ([], s)
  | d :: ds =>
    let r := s.decrypt_int d
    let rest := r.2.decrypt_block ds
    (r.1 :: rest.1, rest.2)

/-- `Version1Context.goto_offset`. -/
def V1State.goto_offset (s : V1State) (pos : Int) : V1State :=
  let pos := max pos 0
  let currentpos4 := s.pos.fdiv 4
  let newpos4 := pos.fdiv 4
  if currentpos4 = newpos4 then
    { s with pos := pos }
  else if newpos4 > currentpos4 then
    { s.stepN (newpos4 - currentpos4).toNat with pos := pos }
  else
    { { s with xor_key := s.init_key }.stepN newpos4.toNat with pos := pos }

/-! ## Version 2 (`class Version2Context`) -/

/-- The mutable state of `Version2Context`. -/
structure V2State where
  header : List Byte
  init_key : Nat
  update_key : Nat
  xor_key : Nat
  pos : Int
deriving DecidableEq

/-- `Version2Context.__init__` (it ignores `key_tables`; a supplied
`header_test` must open with `digest[4:8]`). -/
def Version2Context.init (md5 : List Byte → List Byte) (pfx filename : List Byte)
    (header_test : Option (List Byte)) : Except Error V2State :=
  let pr := calculate_md5 md5 pfx filename
  let digest := pr.1
  let headerBytes := (digest.drop 4).take 4
  match header_test with
  | some ht =>
    if headerBytes ≠ ht.take 4 then .error (.invalidHeader "2")
    else
      let init_key := (((digest.getD 0 0) &&& 0x7F) <<< 24) ||| ((digest.getD 1 0) <<< 16) |||
          ((digest.getD 2 0) <<< 8) ||| digest.getD 3 0
      .ok { header := headerBytes
            init_key := init_key
            update_key := init_key
            xor_key := ((init_key >>> 23) &&& 0xFF) ||| ((init_key >>> 7) &&& 0xFF00)
            pos := 0 }
  | none =>
      let init_key := (((digest.getD 0 0) &&& 0x7F) <<< 24) ||| ((digest.getD 1 0) <<< 16) |||
          ((digest.getD 2 0) <<< 8) ||| digest.getD 3 0
      .ok { header := headerBytes
            init_key := init_key
            update_key := init_key
            xor_key := ((init_key >>> 23) &&& 0xFF) ||| ((init_key >>> 7) &&& 0xFF00)
            pos := 0 }

/-- `Version2Context._step`.  Note the Python source reads
`((a * 0x41A70000) & 0x7FFFFFFF + (self.update_key & 0xFFFF) * 0x41A7) & 0xFFFFFFFF`:
`+` binds tighter than `&`, so the `0x7FFFFFFF` is added to the product
before the bitwise AND is taken. -/
def V2State.step (s : V2State) : V2State :=
  let a := s.update_key >>> 16
  let b := ((a * 0x41A70000) &&& (0x7FFFFFFF + (s.update_key &&& 0xFFFF) * 0x41A7)) &&& 0xFFFFFFFF
  let c := ((a * 0x41A7) >>> 15) &&& 0xFFFFFFFF
  let d := c + b
  let e := ((((d : Int) - 0x7FFFFFFF)) % 0x100000000).toNat
  let f := if e > 0x7FFFFFFE then e else d
  { s with update_key := f
           xor_key := ((f >>> 23) &&& 0xFF) ||| ((f >>> 7) &&& 0xFF00) }

/-- `n` applications of `Version2Context._step`. -/
def V2State.stepN (s : V2State) : Nat → V2State
  | 0 => s
  | n + 1 => s.step.stepN n

/-- `Version2Context.decrypt_int`: result plus the updated state. -/
def V2State.decrypt_int (s : V2State) (data : Nat) : Nat × V2State :=
  let index := ((s.pos % 2).toNat)
  let key := (s.xor_key >>> (index * 8)) &&& 0xFF
  let result := data ^^^ key
  let s := if index = 1 then s.step else s
  (result, { s with pos := s.pos + 1 })

/-- `DecrypterContext.decrypt_block` specialised to V2. -/
def V2State.decrypt_block (s : V2State) : List Nat → List Nat × V2State
  | [] => ([], s)
  | d :: ds =>
    let r := s.decrypt_int d
    let rest := r.2.decrypt_block ds
    (r.1 :: rest.1, rest.2)

/-- `Version2Context.goto_offset`. -/
def V2State.goto_offset (s : V2State) (pos : Int) : V2State :=
  let pos := max pos 0
  let currentpos2 := s.pos.fdiv 2
  let newpos2 := pos.fdiv 2
  if currentpos2 = newpos2 then
    { s with pos := pos }
  else if newpos2 > currentpos2 then
    { s.stepN (newpos2 - currentpos2).toNat with pos := pos }
  else
    let s := { s with
      xor_key := ((s.init_key >>> 23) &&& 0xFF) ||| ((s.init_key >>> 7) &&& 0xFF00) }
    { s.stepN newpos2.toNat with pos := pos }

/-- `Version2Context.emit_header`. -/
def V2State.emit_header (s : V2State) : List Byte := s.header

/-! ## The shared V3/V4 base (`class _V3Base`) -/

/-- The state the abstract base `_V3Base` manipulates: the fields shared by
`Version3Context` and `Version4Context`. -/
structure V3Base where
  lcg : LCGKeys
  init_key : Nat
  update_key : Nat
  pos : Int
deriving DecidableEq

/-- `_V3Base._step`. -/
def V3Base.step (s : V3Base) : V3Base :=
  { s with update_key := s.lcg.next s.update_key }

/-- `n` applications of `_V3Base._step`. -/
def V3Base.stepN (s : V3Base) : Nat → V3Base
  | 0 => s
  | n + 1 => s.step.stepN n

/-- `_V3Base.decrypt_int`: result plus the updated state. -/
def V3Base.decrypt_int (s : V3Base) (data : Nat) : Nat × V3Base :=
  let result := (data &&& 0xFF) ^^^ ((s.update_key >>> (s.lcg.shift &&& 0x1F)) &&& 0xFF)
  (result, { s.step with pos := s.pos + 1 })

/-- `DecrypterContext.decrypt_block` specialised to `_V3Base`. -/
def V3Base.decrypt_block (s : V3Base) : List Nat → List Nat × V3Base
  | [] => ([], s)
  | d :: ds =>
    let r := s.decrypt_int d
    let rest := r.2.decrypt_block ds
    (r.1 :: rest.1, rest.2)

/-- `_V3Base.goto_offset`.  When `self.pos >= pos` the loop bound
`pos - self.pos` is nonpositive, so `range` runs zero times and only the
position is updated; otherwise the key is reset to `init_key` and stepped
`pos` times. -/
def V3Base.goto_offset (s : V3Base) (pos : Int) : V3Base :=
  if s.pos ≥ pos then
    { s with pos := pos }
  else
    { { s with update_key := s.init_key }.stepN pos.toNat with pos := pos }

/-! ## Version 3 (`class Version3Context`) -/

/-- The mutable state of `Version3Context`. -/
structure V3State where
  base : V3Base
  name_sum : Nat
  flipped : Bool
  md5 : List Byte
deriving DecidableEq

/-- `Version3Context.__init__`.  Note both the assignment of `name_sum`
and the mismatch check test `not enforce_ns`, exactly as the source does:
when the check's guard holds, `name_sum` was just set to `header_ns`, so
the `NameSumMismatchError` branch can never fire. -/
def Version3Context.init (pfx : List Byte) (md5digest : List Byte) (basename : List Byte)
    (key_tables : List Nat) (enforce_ns : Bool) (flip : Bool) (header_ns : Option Nat) :
    Except Error V3State :=
  let name_sum := match header_ns, enforce_ns with
    | some ns, false => ns
    | _, _ => pfx.sum + basename.sum
  let mismatch : Bool := match header_ns, enforce_ns with
    | some ns, false => ns != name_sum
    | _, _ => false
  if mismatch then .error .nameSumMismatch
  else
    let idx := name_sum &&& 0x3F
    if h : idx < key_tables.length then
      let raw := key_tables.get ⟨idx, h⟩
      let init_key := if flip then pyNot32 raw else raw
      .ok { base := { lcg := V4_LCG_PARAM.getD 2 ⟨0, 0, 0⟩
                      init_key := init_key
                      update_key := init_key
                      pos := 0 }
            name_sum := name_sum
            flipped := flip
            md5 := md5digest }
    else .error .indexError

/-- `Version3Context.emit_header`. -/
def V3State.emit_header (s : V3State) : List Byte :=
  [pyNot8 (s.md5.getD 4 0), pyNot8 (s.md5.getD 5 0), pyNot8 (s.md5.getD 6 0), 12,
   0, 0, 0, if s.flipped then 1 else 0,
   (s.name_sum >>> 24) &&& 0xFF, (s.name_sum >>> 16) &&& 0xFF,
   (s.name_sum >>> 8) &&& 0xFF, s.name_sum &&& 0xFF,
   0, 0, 0, 0]

/-! ## Version 4 (`class Version4Context`) -/

/-- The mutable state of `Version4Context`. -/
structure V4State where
  base : V3Base
  lcg_index : Nat
  md5 : List Byte
deriving DecidableEq

/-- `Version4Context.__init__`.  `_V4_LCG_PARAM[lcg_index]` raises
`IndexError` when the index is out of the table's range. -/
def Version4Context.init (md5hash : List Byte) (lcg_index : Nat) : Except Error V4State :=
  if h : lcg_index < V4_LCG_PARAM.length then
    let init_key := ((md5hash.getD 8 0) <<< 24) ||| ((md5hash.getD 9 0) <<< 16) |||
        ((md5hash.getD 10 0) <<< 8) ||| md5hash.getD 11 0
    .ok { base := { lcg := V4_LCG_PARAM.get ⟨lcg_index, h⟩
                    init_key := init_key
                    update_key := init_key
                    pos := 0 }
          lcg_index := lcg_index
          md5 := md5hash }
  else .error .indexError

/-- `Version4Context.emit_header`. -/
def V4State.emit_header (s : V4State) : List Byte :=
  [pyNot8 (s.md5.getD 4 0), pyNot8 (s.md5.getD 5 0), pyNot8 (s.md5.getD 6 0), 12,
   0, 0, s.lcg_index, 2, 0, 0, 0, 0, 0, 0, 0, 0]

/-! ## `_test_v3` and `setup_v3` -/

/-- `_test_v3` of `dctx.py`. -/
def test_v3 (header : Option (List Byte)) (md5hash : List Byte) : Except Error Unit :=
  match header with
  | none => .ok ()
  | some h =>
    if h.length < 16 then .error .insufficientHeaderData
    else if h.getD 0 0 ≠ pyNot8 (md5hash.getD 4 0) ∨ h.getD 1 0 ≠ pyNot8 (md5hash.getD 5 0) ∨
        h.getD 2 0 ≠ pyNot8 (md5hash.getD 6 0) then
      .error (.invalidHeader "3+")
    else .ok ()

/-- A constructed engine, tagged by variant (the polymorphic
`DecrypterContext` return value). -/
inductive DCtx where
  | v1 : V1State → DCtx
  | v2 : V2State → DCtx
  | v3 : V3State → DCtx
  | v4 : V4State → DCtx
deriving DecidableEq

/-- The `VERSION` class constant of a constructed engine. -/
def DCtx.versionOf : DCtx → Nat
  | .v1 _ => 1
  | .v2 _ => 2
  | .v3 _ => 3
  | .v4 _ => 4

/-- Lines 391–399 of `dctx.py` (the tail of `setup_v3` after the header
inspection): dispatch on the resolved version number. -/
def setup_v3_build (digest basename pfx : List Byte) (key_tables : Option (List Nat))
    (version : Int) (flip : Bool) (lcg_key : Nat) (enforce_ns : Bool)
    (header_ns : Option Nat) : Except Error DCtx :=
  if version ≤ 0 then .error .versionOutOfRange
  else if version = 3 then
    match key_tables with
    | none => .error .keyTablesMissing
    | some kt => (Version3Context.init pfx digest basename kt enforce_ns flip header_ns).map .v3
  else if version = 4 then
    (Version4Context.init digest lcg_key).map .v4
  else .error .versionOutOfRange

/-- `setup_v3` of `dctx.py`.  In the auto-detect path (`version <= 0`)
the source reads

    if header_test[7] < 2:
        version = 3
        header_ns = ...
    if header_test[7] == 2:
        version = 4
        lcg_key_v4 = header_test[6]
    else:
        raise VersionUnsupported("5+")

so the `else` belongs to the `== 2` test: whenever byte 7 differs from 2
— including bytes 0 and 1, for which `version = 3` and `header_ns` were
just assigned — the function raises `VersionUnsupported`, and the
assignments of the first branch are dead. -/
def setup_v3 (md5 : List Byte → List Byte) (pfx filename : List Byte)
    (key_tables : Option (List Nat)) (header_test : Option (List Byte))
    (version : Int) (flip_v3 : Bool) (lcg_key_v4 : Nat) (enforce_ns_v3 : Bool) :
    Except Error DCtx :=
  let pr := calculate_md5 md5 pfx filename
  let digest := pr.1
  let basename := pr.2
  match header_test with
  | none =>
    if version ≤ 0 then .error .versionOutOfRange
    else setup_v3_build digest basename pfx key_tables version flip_v3 lcg_key_v4 enforce_ns_v3 none
  | some ht =>
    match test_v3 (some ht) digest with
    | .error e => .error e
    | .ok _ =>
      let flip2 := ht.getD 7 0 == 1
      if version ≤ 0 then
        let header_ns : Option Nat :=
          if ht.getD 7 0 < 2 then some (((ht.getD 10 0) <<< 8) ||| ht.getD 11 0) else none
        if ht.getD 7 0 = 2 then
          setup_v3_build digest basename pfx key_tables 4 flip2 (ht.getD 6 0) enforce_ns_v3 header_ns
        else .error (.versionUnsupported "5+")
      else if version < 3 then .error .versionOutOfRange
      else setup_v3_build digest basename pfx key_tables version flip2 lcg_key_v4 enforce_ns_v3 none

/-! ## Key tables (`key_tables.py`) and region data (`__init__.py`) -/

/-- `KEY_TABLES_JP` of `key_tables.py`. -/
def KEY_TABLES_JP : List Nat := [
  1210253353, 1736710334, 1030507233, 1924017366, 1603299666, 1844516425, 1102797553, 32188137,
  782633907, 356258523, 957120135, 10030910, 811467044, 1226589197, 1303858438, 1423840583,
  756169139, 1304954701, 1723556931, 648430219, 1560506399, 1987934810, 305677577, 505363237,
  450129501, 1811702731, 2146795414, 842747461, 638394899, 51014537, 198914076, 120739502,
  1973027104, 586031952, 1484278592, 1560111926, 441007634, 1006001970, 2038250142, 232546121,
  827280557, 1307729428, 775964996, 483398502, 1724135019, 2125939248, 742088754, 1411519905,
  136462070, 1084053905, 2039157473, 1943671327, 650795184, 151139993, 1467120569, 1883837341,
  1249929516, 382015614, 1020618905, 1082135529, 870997426, 1221338057, 1623152467, 1020681319]

/-- `KEY_TABLES_WW` of `key_tables.py`. -/
def KEY_TABLES_WW : List Nat := [
  2861607190, 3623207331, 3775582911, 3285432773, 2211141973, 3078448744, 464780620, 714479011,
  439907422, 421011207, 2997499268, 630739911, 1488792645, 1334839443, 3136567329, 796841981,
  2604917769, 4035806207, 693592067, 1142167757, 1158290436, 568289681, 3621754479, 3645263650,
  4125133444, 3226430103, 3090611485, 1144327221, 879762852, 2932733487, 1916506591, 2754493440,
  1489123288, 3555253860, 2353824933, 1682542640, 635743937, 3455367432, 532501229, 4106615561,
  2081902950, 143042908, 2637612210, 1140910436, 3402665631, 334620177, 1874530657, 863688911,
  1651916050, 1216533340, 2730854202, 1488870464, 2778406960, 3973978011, 1602100650, 2877224961,
  1406289939, 1442089725, 2196364928, 2599396125, 2963448367, 3316646782, 322755307, 3531653795]

/-- `KEY_TABLES_TW` of `key_tables.py`. -/
def KEY_TABLES_TW : List Nat := [
  0xA925E518, 0x5AB9C4A4, 0x01950558, 0xACFF7182, 0xE8183331, 0x9D1B6963, 0x0B8E9D15, 0x96DAD0BB,
  0x0F941E35, 0xC968E363, 0x2058A6AA, 0x7176BB02, 0x4A4B2403, 0xED7A4E23, 0x3BB41EE6, 0x71634C06,
  0x7E0DD1DA, 0x343325C9, 0xE97B42F6, 0xF68F3C8F, 0x1587DED8, 0x09935F9B, 0x3273309B, 0xEFBC3178,
  0x94C01BDD, 0x40CEA3BB, 0xD5785C8A, 0x0EC1B98E, 0xC8D2D2B6, 0xEF7D77B1, 0x71814AAF, 0x2E838EAB,
  0x6B187F58, 0xA9BC924E, 0x6EAB5BA6, 0x738F6D2F, 0xC1B49AA4, 0xAB6A5D53, 0xF958F728, 0x5A0CDB5B,
  0xB8133931, 0x923336C3, 0xB5A41DE0, 0x5F819B33, 0x1F3A76AF, 0x56FB7A7C, 0x64AE7167, 0xF39C00F2,
  0x8F6F61C4, 0x6A79B9B9, 0x5B0AB1A6, 0xB7F07A0A, 0x223035FF, 0x1AA8664C, 0x553EDB16, 0x379230C6,
  0xA2AEEB8A, 0xF647D0EA, 0xA91CB2F6, 0xBB70F817, 0x94D63581, 0x49A7FAD6, 0x7BEDDD15, 0xC6913CED]

/-- `KEY_TABLES_CN` of `key_tables.py`. -/
def KEY_TABLES_CN : List Nat := [
  0x1B695658, 0x0A43A213, 0x0EAD0863, 0x1400056D, 0xD470461D, 0xB6152300, 0xFBE054BC, 0x9AC9F112,
  0x23D3CAB6, 0xCD8FE028, 0x6905BD74, 0x01A3A612, 0x6E96A579, 0x333D7AD1, 0xB6688BFF, 0x29160495,
  0xD7743BCF, 0x8EDE97BB, 0xCACB7E8D, 0x24D81C23, 0xDBFC6947, 0xB07521C8, 0xF506E2AE, 0x3F48DF2F,
  0x52BEB172, 0x695935E8, 0x13E2A0A9, 0xE2EDF409, 0x96CBA5C1, 0xDBB1E890, 0x4C2AF968, 0x17FD17C6,
  0x1B9AF5A8, 0x97C0BC25, 0x8413C879, 0xD9B13FE1, 0x4066A948, 0x9662023A, 0x74A4FEEE, 0x1F24B4F6,
  0x637688C8, 0x7A7CCF70, 0x91042EEC, 0x57EDD02C, 0x666DA2DD, 0x92839DE9, 0x43BAA9ED, 0x024A8E2C,
  0xD4EE7B72, 0x34C18B72, 0x13B275C4, 0xED506A6E, 0xBC1C29B9, 0xFA66A220, 0xC2364DE3, 0x767E52B2,
  0xE2D32439, 0xE6F0CEF5, 0xD18C8687, 0x14BBA295, 0xCD84D15B, 0xA0290F82, 0xD3E95AFC, 0x9C6A97B4]

/-- `NAME_PREFIX_JP = b"Hello"`. -/
def NAME_PREFIX_JP : List Nat := [72, 101, 108, 108, 111]

/-- `NAME_PREFIX_WW = b"BFd3EnkcKa"`. -/
def NAME_PREFIX_WW : List Nat := [66, 70, 100, 51, 69, 110, 107, 99, 75, 97]

/-- `NAME_PREFIX_TW = b"M2o2B7i3M6o6N88"`. -/
def NAME_PREFIX_TW : List Nat := [77, 50, 111, 50, 66, 55, 105, 51, 77, 54, 111, 54, 78, 56, 56]

/-- `NAME_PREFIX_CN = b"iLbs0LpvJrXm3zjdhAr4"`. -/
def NAME_PREFIX_CN : List Nat :=
  [105, 76, 98, 115, 48, 76, 112, 118, 74, 114, 88, 109, 51, 122, 106, 100, 104, 65, 114, 52]

/-- `_COMBINATION` of `__init__.py`: the four regions, in the fixed probing
order. -/
def COMBINATION : List (String × List Nat × List Nat) :=
  [("JP", NAME_PREFIX_JP, KEY_TABLES_JP),
   ("WW", NAME_PREFIX_WW, KEY_TABLES_WW),
   ("TW", NAME_PREFIX_TW, KEY_TABLES_TW),
   ("CN", NAME_PREFIX_CN, KEY_TABLES_CN)]

/-! ## `decrypt_setup` and `decrypt_setup_probe` (`__init__.py`) -/

/-- The candidate loop of `decrypt_setup` for `version == 0`: try each
already-evaluated construction attempt in order, swallowing exactly the
errors `except ValueError` catches; when every candidate fails that way,
raise `NoSuitableModeError`. -/
def tryCandidates : List (Except Error DCtx) → Except Error DCtx
  | [] => .error .noSuitableMode
  | c :: cs =>
    match c with
    | .ok d => .ok d
    | .error e => if e.isValueError then tryCandidates cs else .error e

/-- `decrypt_setup` of `__init__.py`.  `_GAME_VERSIONS_PROBE` is
`[Version2Context, setup_v3, setup_v3]`; `_GAME_VERSIONS` is
`[Version1Context, Version2Context, setup_v3, setup_v3]`, each called as
`cls(prefix, filename, key_tables, header)` — so the explicit version 3
and 4 paths call `setup_v3` with its default `version=0`, i.e. they
auto-detect from the header as well. -/
def decrypt_setup (md5 : List Byte → List Byte) (pfx filename header : List Byte)
    (key_tables : List Nat) (version : Int) : Except Error DCtx :=
  if header.length < 16 then .error .insufficientHeaderData
  else if version = 0 then
    tryCandidates
      [(Version2Context.init md5 pfx filename (some header)).map .v2,
       setup_v3 md5 pfx filename (some key_tables) (some header) 0 false 0 true,
       setup_v3 md5 pfx filename (some key_tables) (some header) 0 false 0 true]
  else if version < 0 ∨ version > 4 then .error .versionOutOfRange
  else if version = 1 then .ok (.v1 (Version1Context.init md5 pfx filename))
  else if version = 2 then (Version2Context.init md5 pfx filename (some header)).map .v2
  else setup_v3 md5 pfx filename (some key_tables) (some header) 0 false 0 true

/-- The region loop of `decrypt_setup_probe`: try each `(gametype, prefix,
key_tables)` triple in order, swallowing exactly the errors
`except ValueError` catches. -/
def probeCombinations (md5 : List Byte → List Byte) (filename header : List Byte)
    (version : Int) : List (String × List Nat × List Nat) → Except Error (DCtx × String)
  | [] => .error .noSuitableMode
  | (gametype, pfx, kt) :: rest =>
    match decrypt_setup md5 pfx filename header kt version with
    | .ok d => .ok (d, gametype)
    | .error e =>
      if e.isValueError then probeCombinations md5 filename header version rest
      else .error e

/-- `decrypt_setup_probe` of `__init__.py`. -/
def decrypt_setup_probe (md5 : List Byte → List Byte) (filename header : List Byte)
    (version : Int) : Except Error (DCtx × String) :=
  probeCombinations md5 filename header version COMBINATION

/-! ## Concrete sample values used by closed theorems -/

/-- A concrete stand-in digest (16 valid bytes) for closed evaluations:
`[0, 1, 2, ..., 15]`. -/
def sampleDigest : List Nat := List.range 16

/-- An abstract MD5 returning `sampleDigest` on every input, used to
evaluate the engines at concrete inputs. -/
def sampleMd5 : List Nat → List Nat := fun _ => sampleDigest

/-- The `Version4Context` state built from `sampleDigest` with LCG
index 0 (its `init_key` is the big-endian word of digest bytes 8–11). -/
def v4Sample : V4State :=
  ⟨⟨⟨1103515245, 12345, 15⟩, 134810123, 134810123, 0⟩, 0, sampleDigest⟩

/-! ## C1 — header-to-version dispatch of `setup_v3` -/

/-- C1 (code bug): header-to-version dispatch of `setup_v3` in
auto-detect mode (version argument 0), evaluated on synthetic 16-byte
headers whose first three bytes are the complement of
`sampleDigest[4..7)` (`[251, 250, 249]`).  A header byte 7 of 0 or of 1
does NOT construct a Version 3 engine as the claim states: the dangling
`else` of the source raises `VersionUnsupported("5+")`.  Byte 7 = 2
constructs Version 4 with LCG index `header[6]`, and byte 7 = 3 raises
`VersionUnsupported` — those two parts of the claim hold. -/
theorem c1_header_dispatch_eval :
    (setup_v3 sampleMd5 [1] [2] (some (List.replicate 64 7))
        (some [251, 250, 249, 12, 0, 0, 0, 0, 0, 0, 0, 0, 0, 0, 0, 0]) 0 false 0 true
      = .error (.versionUnsupported "5+"))
  ∧ (setup_v3 sampleMd5 [1] [2] (some (List.replicate 64 7))
        (some [251, 250, 249, 12, 0, 0, 0, 1, 0, 0, 0, 0, 0, 0, 0, 0]) 0 false 0 true
      = .error (.versionUnsupported "5+"))
  ∧ (setup_v3 sampleMd5 [1] [2] (some (List.replicate 64 7))
        (some [251, 250, 249, 12, 0, 0, 1, 2, 0, 0, 0, 0, 0, 0, 0, 0]) 0 false 0 true
      = .ok (.v4 ⟨⟨⟨22695477, 1, 23⟩, 134810123, 134810123, 0⟩, 1, sampleDigest⟩))
  ∧ (setup_v3 sampleMd5 [1] [2] (some (List.replicate 64 7))
        (some [251, 250, 249, 12, 0, 0, 0, 3, 0, 0, 0, 0, 0, 0, 0, 0]) 0 false 0 true
      = .error (.versionUnsupported "5+")) :=
  ⟨rfl, rfl, rfl, rfl⟩

/-! ## C2 — seek/decrypt equivalence -/

/-- C2 (code bug): the freshly constructed V4 engine (`v4Sample`)
violates seek/decrypt equivalence.  After decrypting two bytes,
`goto_offset 0` does not reset the key schedule (the source's
`_V3Base.goto_offset` replays only on FORWARD seeks), so the next
decrypted byte differs from byte 0 of a fresh decryption. -/
theorem c2_v4_backward_seek_breaks :
    Version4Context.init sampleDigest 0 = .ok v4Sample
  ∧ ((((v4Sample.base.decrypt_block [0, 0]).2.goto_offset 0).decrypt_int 0).1
      ≠ (v4Sample.base.decrypt_int 0).1) :=
  ⟨rfl, by decide⟩

/-! ## C3 — the V2 key-schedule step -/

/-- The V2 key-schedule update exactly as the specification (and claim
C3) words it: with `a = update_key >> 16`, compute
`b = ((a * 0x41A70000) mod 2^32 + (update_key & 0xFFFF) * 0x41A7) mod 2^32`,
then subtract `0x7FFFFFFF` modulo `2^32` exactly when the result exceeds
`0x7FFFFFFE`. -/
def v2SpecStep (update_key : Nat) : Nat :=
  let a := update_key >>> 16
  let b := ((a * 0x41A70000) % 0x100000000 + (update_key &&& 0xFFFF) * 0x41A7) % 0x100000000
  if b > 0x7FFFFFFE then ((((b : Int) - 0x7FFFFFFF)) % 0x100000000).toNat else b

/-- The V2 key-schedule update as the code actually computes it (the
amended claim):
`b = ((a * 0x41A70000) AND (0x7FFFFFFF + (update_key & 0xFFFF) * 0x41A7)) mod 2^32`
(Python's `+` binds tighter than `&`, so `0x7FFFFFFF` joins the addition
rather than masking the product), `c = (a * 0x41A7) >> 15`, `d = c + b`,
`e = (d - 0x7FFFFFFF) mod 2^32`, and the new `update_key` is `e` when
`e > 0x7FFFFFFE`, else `d` (so the normalization tests `e`, not `d`). -/
def v2CodeStep (update_key : Nat) : Nat :=
  let a := update_key >>> 16
  let b := ((a * 0x41A70000) &&& (0x7FFFFFFF + (update_key &&& 0xFFFF) * 0x41A7)) &&& 0xFFFFFFFF
  let c := ((a * 0x41A7) >>> 15) &&& 0xFFFFFFFF
  let d := c + b
  let e := ((((d : Int) - 0x7FFFFFFF)) % 0x100000000).toNat
  if e > 0x7FFFFFFE then e else d

/-- C3 counterexample: a V2 engine finishing a 2-byte period (position
1, `update_key = 66051`, the value a `Version2Context` built from
`sampleDigest` carries) does not produce the spec formula's update: the
code yields 2156134401 where the claim's formula yields 1110119157. -/
theorem c3_counterexample :
    (((⟨[], 66051, 66051, 772, 1⟩ : V2State).decrypt_int 0).2).update_key
      ≠ v2SpecStep 66051 := by decide

/-- C3 as amended: whenever the V2 engine finishes a 2-byte period (its
position is odd when `decrypt_int` runs), the new `update_key` is
`v2CodeStep` of the old one, and the 16-bit `xor_key` is recomputed from
it as `((k >> 23) & 0xFF) | ((k >> 7) & 0xFF00)`. -/
theorem c3_amended_step (s : V2State) (d : Nat) (h : s.pos % 2 = 1) :
    ((s.decrypt_int d).2).update_key = v2CodeStep s.update_key
  ∧ ((s.decrypt_int d).2).xor_key =
      ((v2CodeStep s.update_key >>> 23) &&& 0xFF) |||
      ((v2CodeStep s.update_key >>> 7) &&& 0xFF00) := by
  unfold V2State.decrypt_int V2State.step v2CodeStep
  rw [h]
  exact ⟨rfl, rfl⟩

/-- C3 witness: the amended step law applied at a concrete odd-position
V2 state. -/
theorem c3_amended_step_witness :
    (((⟨[], 66051, 66051, 772, 1⟩ : V2State).decrypt_int 0).2).update_key = v2CodeStep 66051
  ∧ (((⟨[], 66051, 66051, 772, 1⟩ : V2State).decrypt_int 0).2).xor_key =
      ((v2CodeStep 66051 >>> 23) &&& 0xFF) ||| ((v2CodeStep 66051 >>> 7) &&& 0xFF00) :=
  c3_amended_step ⟨[], 66051, 66051, 772, 1⟩ 0 (by decide)

/-! ## C4 — strict V3 name-sum enforcement -/

/-- C4 (code bug): constructing `Version3Context` with strict
enforcement (`enforce_ns = true`) and a header-embedded name sum (999)
that disagrees with the recomputed one (`sum [1] + sum [2] = 3`)
SUCCEEDS — the state carries the recomputed `name_sum = 3` — instead of
raising `NameSumMismatchError` as the claim requires: both the
assignment and the mismatch check of the source test `not enforce_ns`,
so the error branch is unreachable. -/
theorem c4_strict_mismatch_succeeds :
    Version3Context.init [1] sampleDigest [2] (List.replicate 64 7) true false (some 999)
      = .ok ⟨⟨⟨214013, 2531011, 24⟩, 7, 7, 0⟩, 3, false, sampleDigest⟩ :=
  rfl
/-! ## C5 — encrypt/decrypt round trip -/

/-- Decrypting a just-decrypted byte with the same V1 state returns the
original byte (`decrypt_int` is a self-inverse XOR). -/
theorem v1_decrypt_double (s : V1State) (d : Nat) :
    (s.decrypt_int ((s.decrypt_int d).1)).1 = d := by
  simp only [V1State.decrypt_int]
  exact Nat.xor_cancel_right _ d

/-- V1 round trip: running `decrypt_block` twice from the same state is
the identity. -/
theorem v1_roundtrip (s : V1State) (data : List Nat) :
    (s.decrypt_block ((s.decrypt_block data).1)).1 = data := by
  induction data generalizing s with
  | nil => rfl
  | cons d ds ih =>
    simp only [V1State.decrypt_block]
    show (s.decrypt_int (s.decrypt_int d).1).1 ::
        ((s.decrypt_int d).2.decrypt_block ((s.decrypt_int d).2.decrypt_block ds).1).1 = d :: ds
    rw [v1_decrypt_double, ih]

/-- Decrypting a just-decrypted byte with the same V2 state returns the
original byte. -/
theorem v2_decrypt_double (s : V2State) (d : Nat) :
    (s.decrypt_int ((s.decrypt_int d).1)).1 = d := by
  simp only [V2State.decrypt_int]
  exact Nat.xor_cancel_right _ d

/-- V2 round trip. -/
theorem v2_roundtrip (s : V2State) (data : List Nat) :
    (s.decrypt_block ((s.decrypt_block data).1)).1 = data := by
  induction data generalizing s with
  | nil => rfl
  | cons d ds ih =>
    simp only [V2State.decrypt_block]
    show (s.decrypt_int (s.decrypt_int d).1).1 ::
        ((s.decrypt_int d).2.decrypt_block ((s.decrypt_int d).2.decrypt_block ds).1).1 = d :: ds
    rw [v2_decrypt_double, ih]

/-- `x &&& 255` of a byte value is the value itself. -/
theorem and255_of_lt (x : Nat) (h : x < 256) : x &&& 255 = x := by
  have h255 : (255 : Nat) = 2 ^ 8 - 1 := by norm_num
  have h8 : x < 2 ^ 8 := by norm_num at h ⊢; exact h
  rw [h255, Nat.and_pow_two_sub_one_of_lt_two_pow h8]

/-- The XOR key byte a `_V3Base` state derives is below 256. -/
theorem v3_key_lt (s : V3Base) :
    (s.update_key >>> (s.lcg.shift &&& 0x1F)) &&& 0xFF < 256 :=
  Nat.lt_succ_of_le Nat.and_le_right

/-- Decrypting a just-decrypted byte with the same `_V3Base` state
returns the original byte, provided it was a byte (`< 256`): the source
masks the data with `& 0xFF` before XORing. -/
theorem v3_decrypt_double (s : V3Base) (d : Nat) (h : d < 256) :
    (s.decrypt_int ((s.decrypt_int d).1)).1 = d := by
  simp only [V3Base.decrypt_int]
  rw [and255_of_lt d h]
  rw [and255_of_lt _ (Nat.xor_lt_two_pow (n := 8) (by norm_num at h ⊢; exact h) (by
    have := v3_key_lt s; norm_num at this ⊢; exact this))]
  exact Nat.xor_cancel_right _ d

/-- `_V3Base` round trip over byte lists. -/
theorem v3base_roundtrip (s : V3Base) (data : List Nat) (h : ∀ b ∈ data, b < 256) :
    (s.decrypt_block ((s.decrypt_block data).1)).1 = data := by
  induction data generalizing s with
  | nil => rfl
  | cons d ds ih =>
    simp only [V3Base.decrypt_block]
    show (s.decrypt_int (s.decrypt_int d).1).1 ::
        ((s.decrypt_int d).2.decrypt_block ((s.decrypt_int d).2.decrypt_block ds).1).1 = d :: ds
    rw [v3_decrypt_double s d (h d (List.mem_cons_self d ds)),
      ih _ (fun b hb => h b (List.mem_cons_of_mem d hb))]

/-- C5: decryption is an involution for every variant.  For each of the
four engine constructors, decrypting an already-decrypted byte list with
a second engine built from the same parameters reproduces the original
list (the byte hypothesis is needed because V3/V4 mask the data with
`& 0xFF`). -/
theorem c5_decrypt_involution (md5 : List Nat → List Nat) (pfx filename : List Nat)
    (kt : List Nat) (enforce flip : Bool) (header_ns : Option Nat)
    (dgst basename : List Nat) (lcg_index : Nat)
    (data : List Nat) (hdata : ∀ b ∈ data, b < 256) :
    (((Version1Context.init md5 pfx filename).decrypt_block
        (((Version1Context.init md5 pfx filename).decrypt_block data).1)).1 = data)
  ∧ (∀ s, Version2Context.init md5 pfx filename none = .ok s →
      (s.decrypt_block ((s.decrypt_block data).1)).1 = data)
  ∧ (∀ s, Version3Context.init pfx dgst basename kt enforce flip header_ns = .ok s →
      (s.base.decrypt_block ((s.base.decrypt_block data).1)).1 = data)
  ∧ (∀ s, Version4Context.init dgst lcg_index = .ok s →
      (s.base.decrypt_block ((s.base.decrypt_block data).1)).1 = data) :=
  ⟨v1_roundtrip _ data,
   fun s _ => v2_roundtrip s data,
   fun s _ => v3base_roundtrip s.base data hdata,
   fun s _ => v3base_roundtrip s.base data hdata⟩

/-- C5 witness: the involution at concrete parameters (`sampleMd5`, a
64-entry key table of 7s, data `[0, 1, 255]`). -/
theorem c5_decrypt_involution_witness :
    (((Version1Context.init sampleMd5 [1] [2]).decrypt_block
        (((Version1Context.init sampleMd5 [1] [2]).decrypt_block [0, 1, 255]).1)).1
      = [0, 1, 255])
  ∧ (∀ s, Version2Context.init sampleMd5 [1] [2] none = .ok s →
      (s.decrypt_block ((s.decrypt_block [0, 1, 255]).1)).1 = [0, 1, 255])
  ∧ (∀ s, Version3Context.init [1] sampleDigest [2] (List.replicate 64 7) true false none
        = .ok s →
      (s.base.decrypt_block ((s.base.decrypt_block [0, 1, 255]).1)).1 = [0, 1, 255])
  ∧ (∀ s, Version4Context.init sampleDigest 0 = .ok s →
      (s.base.decrypt_block ((s.base.decrypt_block [0, 1, 255]).1)).1 = [0, 1, 255]) :=
  c5_decrypt_involution sampleMd5 [1] [2] (List.replicate 64 7) true false none
    sampleDigest [2] 0 [0, 1, 255] (by decide)

/-! ## C6 — V2 header round trip and tamper detection -/

/-- C6: a V2 engine built without a header always succeeds and emits
exactly `digest[4:8]`; feeding that emitted header back into a fresh
construction with the same parameters succeeds (yielding the same
state); and construction with a supplied header raises the
header-mismatch error exactly when the header's first four bytes differ
from `digest[4:8]`. -/
theorem c6_v2_header_roundtrip (md5 : List Nat → List Nat) (pfx filename : List Nat) :
    (∃ s, Version2Context.init md5 pfx filename none = .ok s)
  ∧ (∀ s, Version2Context.init md5 pfx filename none = .ok s →
        s.emit_header = (((calculate_md5 md5 pfx filename).1).drop 4).take 4
      ∧ Version2Context.init md5 pfx filename (some s.emit_header) = .ok s)
  ∧ (∀ ht, Version2Context.init md5 pfx filename (some ht) = .error (.invalidHeader "2")
        ↔ (((calculate_md5 md5 pfx filename).1).drop 4).take 4 ≠ ht.take 4) := by
  refine ⟨⟨_, rfl⟩, ?_, ?_⟩
  · intro s hs
    simp only [Version2Context.init] at hs
    have hs2 := Except.ok.inj hs
    subst hs2
    refine ⟨rfl, ?_⟩
    simp only [Version2Context.init, V2State.emit_header, List.take_take]
    simp
  · intro ht
    by_cases h : (((calculate_md5 md5 pfx filename).1).drop 4).take 4 ≠ ht.take 4
    · simp only [Version2Context.init, if_pos h]
      exact iff_of_true (by trivial) h
    · simp only [Version2Context.init, if_neg h]
      constructor
      · intro hcontra
        exact absurd hcontra (by simp)
      · intro hcontra
        exact absurd hcontra h
/-! ## C7 — probing order and aggregation -/

/-- A successful `setup_v3_build` yields a Version 3 or a Version 4
engine. -/
theorem setup_v3_build_ok_version (dgst bn pfx : List Nat) (kt : Option (List Nat))
    (version : Int) (flip : Bool) (lcg : Nat) (ens : Bool) (hns : Option Nat) (d : DCtx)
    (h : setup_v3_build dgst bn pfx kt version flip lcg ens hns = .ok d) :
    d.versionOf = 3 ∨ d.versionOf = 4 := by
  unfold setup_v3_build at h
  split at h
  · exact absurd h (by simp)
  · split at h
    · cases kt with
      | none => exact absurd h (by simp)
      | some k =>
        simp only at h
        cases h3 : Version3Context.init pfx dgst bn k ens flip hns with
        | error e => rw [h3] at h; exact absurd h (by simp [Except.map])
        | ok s =>
          rw [h3] at h
          simp only [Except.map] at h
          have := Except.ok.inj h
          subst this
          exact Or.inl rfl
    · split at h
      · cases h4 : Version4Context.init dgst lcg with
        | error e => rw [h4] at h; exact absurd h (by simp [Except.map])
        | ok s =>
          rw [h4] at h
          simp only [Except.map] at h
          have := Except.ok.inj h
          subst this
          exact Or.inr rfl
      · exact absurd h (by simp)

/-- A successful `setup_v3` yields a Version 3 or a Version 4 engine. -/
theorem setup_v3_ok_version (md5 : List Nat → List Nat) (pfx filename : List Nat)
    (kt : Option (List Nat)) (ht : Option (List Nat)) (version : Int) (flip : Bool)
    (lcg : Nat) (ens : Bool) (d : DCtx)
    (h : setup_v3 md5 pfx filename kt ht version flip lcg ens = .ok d) :
    d.versionOf = 3 ∨ d.versionOf = 4 := by
  unfold setup_v3 at h
  cases ht with
  | none =>
    simp only at h
    split at h
    · exact absurd h (by simp)
    · exact setup_v3_build_ok_version _ _ _ _ _ _ _ _ _ _ h
  | some hdr =>
    simp only at h
    cases htest : test_v3 (some hdr) (calculate_md5 md5 pfx filename).1 with
    | error e => rw [htest] at h; exact absurd h (by simp)
    | ok u =>
      rw [htest] at h
      simp only at h
      split at h
      · split at h
        · exact setup_v3_build_ok_version _ _ _ _ _ _ _ _ _ _ h
        · exact absurd h (by simp)
      · split at h
        · exact absurd h (by simp)
        · exact setup_v3_build_ok_version _ _ _ _ _ _ _ _ _ _ h

/-- `tryCandidates` only succeeds with a candidate of its list. -/
theorem tryCandidates_ok_mem (l : List (Except Error DCtx)) (d : DCtx)
    (h : tryCandidates l = .ok d) : .ok d ∈ l := by
  induction l with
  | nil => exact absurd h (by simp [tryCandidates])
  | cons c cs ih =>
    unfold tryCandidates at h
    cases c with
    | ok x =>
      simp only at h
      have := Except.ok.inj h
      subst this
      exact List.mem_cons_self _ _
    | error e =>
      simp only at h
      split at h
      · exact List.mem_cons_of_mem _ (ih h)
      · exact absurd h (by simp)

/-- A successful version-0 `decrypt_setup` never yields a Version 1
engine: the probe list holds only the V2 constructor and `setup_v3`. -/
theorem decrypt_setup0_not_v1 (md5 : List Nat → List Nat) (pfx filename header : List Nat)
    (kt : List Nat) (d : DCtx)
    (h : decrypt_setup md5 pfx filename header kt 0 = .ok d) : d.versionOf ≠ 1 := by
  unfold decrypt_setup at h
  split at h
  · exact absurd h (by simp)
  · rw [if_pos rfl] at h
    have hmem := tryCandidates_ok_mem _ _ h
    simp only [List.mem_cons, List.not_mem_nil, or_false] at hmem
    rcases hmem with h1 | h2 | h3
    · cases hv2 : Version2Context.init md5 pfx filename (some header) with
      | error e => rw [hv2] at h1; exact absurd h1.symm (by simp [Except.map])
      | ok s =>
        rw [hv2] at h1
        simp only [Except.map] at h1
        have := Except.ok.inj h1.symm
        rw [← this]
        simp [DCtx.versionOf]
    · rcases setup_v3_ok_version _ _ _ _ _ _ _ _ _ _ h2.symm with hv | hv <;> omega
    · rcases setup_v3_ok_version _ _ _ _ _ _ _ _ _ _ h3.symm with hv | hv <;> omega

/-- `probeCombinations` only succeeds with a region of its list, and the
engine comes from that region's `decrypt_setup`. -/
theorem probeCombinations_ok_mem (md5 : List Nat → List Nat) (fn hd : List Nat)
    (v : Int) (d : DCtx) (g : String) :
    ∀ l, probeCombinations md5 fn hd v l = .ok (d, g) →
      ∃ pfx kt, (g, pfx, kt) ∈ l ∧ decrypt_setup md5 pfx fn hd kt v = .ok d := by
  intro l
  induction l with
  | nil => intro h; exact absurd h (by simp [probeCombinations])
  | cons t rest ih =>
    obtain ⟨gt, pfx, kt⟩ := t
    intro h
    unfold probeCombinations at h
    cases hds : decrypt_setup md5 pfx fn hd kt v with
    | ok dd =>
      rw [hds] at h
      simp only at h
      have hp := Except.ok.inj h
      have hd1 : dd = d := congrArg Prod.fst hp
      have hg1 : gt = g := congrArg Prod.snd hp
      subst hd1; subst hg1
      exact ⟨pfx, kt, List.mem_cons_self _ _, hds⟩
    | error e =>
      rw [hds] at h
      simp only at h
      split at h
      · obtain ⟨p2, k2, hmem, hds2⟩ := ih h
        exact ⟨p2, k2, List.mem_cons_of_mem _ hmem, hds2⟩
      · exact absurd h (by simp)

/-- `probeCombinations` returns the first region whose `decrypt_setup`
succeeds, provided every earlier region fails with a `ValueError`. -/
theorem probeCombinations_first_ok (md5 : List Nat → List Nat) (fn hd : List Nat)
    (v : Int) (d : DCtx) :
    ∀ pre g pfx kt rest,
      (∀ t ∈ pre, ∃ e, decrypt_setup md5 t.2.1 fn hd t.2.2 v = .error e ∧
        e.isValueError = true) →
      decrypt_setup md5 pfx fn hd kt v = .ok d →
      probeCombinations md5 fn hd v (pre ++ (g, pfx, kt) :: rest) = .ok (d, g) := by
  intro pre
  induction pre with
  | nil =>
    intro g pfx kt rest _ hok
    simp only [List.nil_append]
    unfold probeCombinations
    rw [hok]
  | cons t pre2 ih =>
    intro g pfx kt rest hfail hok
    obtain ⟨gt, p2, k2⟩ := t
    obtain ⟨e, he, hev⟩ := hfail (gt, p2, k2) (List.mem_cons_self _ _)
    simp only [List.cons_append]
    unfold probeCombinations
    rw [he]
    simp only [hev, if_pos]
    exact ih g pfx kt rest (fun t ht => hfail t (List.mem_cons_of_mem _ ht)) hok

/-- When every region of the list fails with a `ValueError`,
`probeCombinations` raises the single aggregate `NoSuitableModeError`. -/
theorem probeCombinations_all_fail (md5 : List Nat → List Nat) (fn hd : List Nat) (v : Int) :
    ∀ l, (∀ t ∈ l, ∃ e, decrypt_setup md5 t.2.1 fn hd t.2.2 v = .error e ∧
        e.isValueError = true) →
      probeCombinations md5 fn hd v l = .error .noSuitableMode := by
  intro l
  induction l with
  | nil => intro _; rfl
  | cons t rest ih =>
    intro hfail
    obtain ⟨gt, p2, k2⟩ := t
    obtain ⟨e, he, hev⟩ := hfail (gt, p2, k2) (List.mem_cons_self _ _)
    unfold probeCombinations
    rw [he]
    simp only [hev, if_pos]
    exact ih (fun t ht => hfail t (List.mem_cons_of_mem _ ht))

/-- C7: behaviour of blind probing (`decrypt_setup_probe` /
`decrypt_setup` with version 0): a successful probe never returns a
Version 1 engine; within a region the V2 probe runs before the combined
V3/V4 probe (`setup_v3`); regions are tried in the fixed order of
`_COMBINATION` (JP, WW, TW, CN), the first success winning while earlier
`ValueError`-style failures are swallowed; and when every region fails
that way the probe raises exactly the aggregate `NoSuitableModeError`. -/
theorem c7_probe_order (md5 : List Nat → List Nat) (filename header : List Nat) :
    (∀ d g, decrypt_setup_probe md5 filename header 0 = .ok (d, g) → d.versionOf ≠ 1)
  ∧ (∀ pfx kt d, 16 ≤ header.length →
      Version2Context.init md5 pfx filename (some header) = .ok d →
      decrypt_setup md5 pfx filename header kt 0 = .ok (.v2 d))
  ∧ (∀ pfx kt e d, 16 ≤ header.length →
      Version2Context.init md5 pfx filename (some header) = .error e →
      e.isValueError = true →
      setup_v3 md5 pfx filename (some kt) (some header) 0 false 0 true = .ok d →
      decrypt_setup md5 pfx filename header kt 0 = .ok d)
  ∧ (∀ pre g pfx kt rest, COMBINATION = pre ++ (g, pfx, kt) :: rest →
      (∀ t ∈ pre, ∃ e, decrypt_setup md5 t.2.1 filename header t.2.2 0 = .error e ∧
        e.isValueError = true) →
      ∀ d, decrypt_setup md5 pfx filename header kt 0 = .ok d →
      decrypt_setup_probe md5 filename header 0 = .ok (d, g))
  ∧ ((∀ t ∈ COMBINATION, ∃ e, decrypt_setup md5 t.2.1 filename header t.2.2 0 = .error e ∧
        e.isValueError = true) →
      decrypt_setup_probe md5 filename header 0 = .error .noSuitableMode) := by
  refine ⟨?_, ?_, ?_, ?_, ?_⟩
  · intro d g hok
    obtain ⟨pfx, kt, _, hds⟩ := probeCombinations_ok_mem md5 filename header 0 d g _ hok
    exact decrypt_setup0_not_v1 md5 pfx filename header kt d hds
  · intro pfx kt d h16 hv2
    unfold decrypt_setup
    rw [if_neg (by omega), if_pos rfl, hv2]
    rfl
  · intro pfx kt e d h16 hv2 hev hs3
    unfold decrypt_setup
    rw [if_neg (by omega), if_pos rfl, hv2, hs3]
    simp only [Except.map, tryCandidates, hev, if_pos]
  · intro pre g pfx kt rest hcomb hfail d hok
    unfold decrypt_setup_probe
    rw [hcomb]
    exact probeCombinations_first_ok md5 filename header 0 d pre g pfx kt rest hfail hok
  · intro hfail
    exact probeCombinations_all_fail md5 filename header 0 COMBINATION hfail
/-! ## C8 — seek target clamping -/

/-- C8 counterexample: for the concrete V4 engine state `v4Sample.base`
(position 0), `goto_offset (-1)` does NOT leave the engine in the state
`goto_offset 0` produces: `_V3Base.goto_offset` never clamps, so the
position becomes -1. -/
theorem c8_counterexample :
    v4Sample.base.goto_offset (-1) ≠ v4Sample.base.goto_offset 0 := by decide

/-- C8 as amended: V1 and V2 clamp seek targets — `goto_offset t` with
`t < 0` equals `goto_offset 0`, their constructors start at position 0,
and `decrypt_int` / `goto_offset` keep the position nonnegative — but
`_V3Base` (V3/V4) does not clamp: from a nonnegative position,
`goto_offset t` with `t < 0` merely stores the negative `t` as the new
position, leaving every other field unchanged. -/
theorem c8_amended_clamping (md5 : List Nat → List Nat) (pfx filename : List Nat)
    (s1 : V1State) (s2 : V2State) (sb : V3Base) (t : Int) (d : Nat) (ht : t < 0) :
    s1.goto_offset t = s1.goto_offset 0
  ∧ s2.goto_offset t = s2.goto_offset 0
  ∧ (Version1Context.init md5 pfx filename).pos = 0
  ∧ (0 ≤ s1.pos → 0 ≤ (s1.decrypt_int d).2.pos)
  ∧ (∀ u : Int, 0 ≤ (s1.goto_offset u).pos)
  ∧ (∀ s, Version2Context.init md5 pfx filename none = .ok s → s.pos = 0)
  ∧ (0 ≤ s2.pos → 0 ≤ (s2.decrypt_int d).2.pos)
  ∧ (∀ u : Int, 0 ≤ (s2.goto_offset u).pos)
  ∧ (0 ≤ sb.pos → sb.goto_offset t = { sb with pos := t }) := by
  have hmax : max t 0 = 0 := max_eq_right ht.le
  refine ⟨?_, ?_, rfl, ?_, ?_, ?_, ?_, ?_, ?_⟩
  · simp only [V1State.goto_offset, hmax, max_self]
  · simp only [V2State.goto_offset, hmax, max_self]
  · intro hp
    simp only [V1State.decrypt_int, V1State.step]
    split
    · show (0 : Int) ≤ s1.pos + 1
      omega
    · show (0 : Int) ≤ s1.pos + 1
      omega
  · intro u
    simp only [V1State.goto_offset]
    split
    · exact le_max_right u 0
    · split
      · exact le_max_right u 0
      · exact le_max_right u 0
  · intro s hs
    simp only [Version2Context.init] at hs
    have := Except.ok.inj hs
    subst this
    rfl
  · intro hp
    simp only [V2State.decrypt_int, V2State.step]
    split
    · show (0 : Int) ≤ s2.pos + 1
      omega
    · show (0 : Int) ≤ s2.pos + 1
      omega
  · intro u
    simp only [V2State.goto_offset]
    split
    · exact le_max_right u 0
    · split
      · exact le_max_right u 0
      · exact le_max_right u 0
  · intro hp
    unfold V3Base.goto_offset
    rw [if_pos (by omega)]

/-- C8 witness: the amended clamping law at concrete engine states
(`t = -1`). -/
theorem c8_amended_clamping_witness :
    (⟨9, 5, 5, 0⟩ : V1State).goto_offset (-1) = (⟨9, 5, 5, 0⟩ : V1State).goto_offset 0
  ∧ (⟨[], 3, 3, 3, 0⟩ : V2State).goto_offset (-1) = (⟨[], 3, 3, 3, 0⟩ : V2State).goto_offset 0
  ∧ (Version1Context.init sampleMd5 [1] [2]).pos = 0
  ∧ (0 ≤ (⟨9, 5, 5, 0⟩ : V1State).pos →
      0 ≤ ((⟨9, 5, 5, 0⟩ : V1State).decrypt_int 7).2.pos)
  ∧ (∀ u : Int, 0 ≤ ((⟨9, 5, 5, 0⟩ : V1State).goto_offset u).pos)
  ∧ (∀ s, Version2Context.init sampleMd5 [1] [2] none = .ok s → s.pos = 0)
  ∧ (0 ≤ (⟨[], 3, 3, 3, 0⟩ : V2State).pos →
      0 ≤ ((⟨[], 3, 3, 3, 0⟩ : V2State).decrypt_int 7).2.pos)
  ∧ (∀ u : Int, 0 ≤ ((⟨[], 3, 3, 3, 0⟩ : V2State).goto_offset u).pos)
  ∧ (0 ≤ v4Sample.base.pos →
      v4Sample.base.goto_offset (-1) = { v4Sample.base with pos := -1 }) :=
  c8_amended_clamping sampleMd5 [1] [2] ⟨9, 5, 5, 0⟩ ⟨[], 3, 3, 3, 0⟩ v4Sample.base
    (-1) 7 (by decide)

/-! ## C9 — the concrete V1 scenario -/

/-- Disjoint bitwise OR is addition: `2^i * A ||| B = 2^i * A + B` when
`B < 2^i`. -/
theorem lor_two_pow_add {i : Nat} (A B : Nat) (h : B < 2 ^ i) :
    (2 ^ i * A) ||| B = 2 ^ i * A + B :=
  (Nat.mul_add_lt_is_or h A).symm

/-- The big-endian 32-bit assembly
`(a << 24) | (b << 16) | (c << 8) | d` equals the positional value
`((a * 256 + b) * 256 + c) * 256 + d` for byte operands. -/
theorem be32_eq (a b c d : Nat) (hb : b < 256) (hc : c < 256) (hd : d < 256) :
    (a <<< 24) ||| (b <<< 16) ||| (c <<< 8) ||| d
      = ((a * 256 + b) * 256 + c) * 256 + d := by
  have p8 : (2 : Nat) ^ 8 = 256 := by norm_num
  have p16 : (2 : Nat) ^ 16 = 65536 := by norm_num
  have p24 : (2 : Nat) ^ 24 = 16777216 := by norm_num
  have e1 : a <<< 24 = 2 ^ 24 * a := by rw [Nat.shiftLeft_eq]; ring
  have e2 : b <<< 16 = 2 ^ 16 * b := by rw [Nat.shiftLeft_eq]; ring
  have e3 : c <<< 8 = 2 ^ 8 * c := by rw [Nat.shiftLeft_eq]; ring
  rw [e1, e2, e3]
  rw [lor_two_pow_add a (2 ^ 16 * b) (by omega)]
  rw [show 2 ^ 24 * a + 2 ^ 16 * b = 2 ^ 16 * (2 ^ 8 * a + b) from by
    rw [p8, p16, p24]; ring]
  rw [lor_two_pow_add (2 ^ 8 * a + b) (2 ^ 8 * c) (by omega)]
  rw [show 2 ^ 16 * (2 ^ 8 * a + b) + 2 ^ 8 * c
      = 2 ^ 8 * (2 ^ 8 * (2 ^ 8 * a + b) + c) from by
    rw [p8, p16]; ring]
  rw [lor_two_pow_add (2 ^ 8 * (2 ^ 8 * a + b) + c) d (by omega)]
  rw [p8]
  ring

/-- The top byte of a big-endian 32-bit word assembled from bytes. -/
theorem be32_top_byte (a b c d : Nat) (ha : a < 256) (hb : b < 256) (hc : c < 256)
    (hd : d < 256) :
    ((((a * 256 + b) * 256 + c) * 256 + d) >>> 24) &&& 255 = a := by
  have hdiv : (((a * 256 + b) * 256 + c) * 256 + d) >>> 24 = a := by
    rw [Nat.shiftRight_eq_div_pow]
    have p24 : (2 : Nat) ^ 24 = 16777216 := by norm_num
    rw [p24]
    omega
  rw [hdiv, and255_of_lt a ha]

/-- A `getD` lookup in a list of bytes is a byte. -/
theorem getD_lt_256 (l : List Nat) (h : ∀ b ∈ l, b < 256) (i : Nat) : l.getD i 0 < 256 := by
  induction l generalizing i with
  | nil => simp [List.getD]
  | cons x xs ih =>
    cases i with
    | zero => simpa using h x (List.mem_cons_self x xs)
    | succ j => simpa using ih (fun b hb => h b (List.mem_cons_of_mem x hb)) j

/-- The first `decrypt_int` of a V1 engine at position 0 XORs with the
top byte of `xor_key`. -/
theorem v1_first_byte (s : V1State) (hp : s.pos = 0) (d : Nat) :
    (s.decrypt_int d).1 = d ^^^ ((s.xor_key >>> 24) &&& 0xFF) := by
  simp only [V1State.decrypt_int, hp]
  norm_num

/-- The byte string `b"test.bin"`. -/
def TEST_BIN : List Nat := [116, 101, 115, 116, 46, 98, 105, 110]

/-- C9: for prefix `b"BFd3EnkcKa"` (region WW) and filename
`b"test.bin"`, the fresh `Version1Context` has `update_key = (8 mod 64)
+ 1 = 9` and `init_key` equal to the big-endian 32-bit integer of the
first four digest bytes, and its first `decrypt_int` on input 0 returns
digest byte 0 (the top byte of `init_key` XORed with 0).  The digest is
abstract because MD5 is an external collaborator; the hypothesis states
that it consists of bytes. -/
theorem c9_v1_concrete_scenario (md5 : List Nat → List Nat)
    (hbytes : ∀ b ∈ (calculate_md5 md5 NAME_PREFIX_WW TEST_BIN).1, b < 256) :
    (Version1Context.init md5 NAME_PREFIX_WW TEST_BIN).update_key = 9
  ∧ (Version1Context.init md5 NAME_PREFIX_WW TEST_BIN).init_key =
      (((calculate_md5 md5 NAME_PREFIX_WW TEST_BIN).1.getD 0 0 * 256 +
        (calculate_md5 md5 NAME_PREFIX_WW TEST_BIN).1.getD 1 0) * 256 +
        (calculate_md5 md5 NAME_PREFIX_WW TEST_BIN).1.getD 2 0) * 256 +
        (calculate_md5 md5 NAME_PREFIX_WW TEST_BIN).1.getD 3 0
  ∧ ((Version1Context.init md5 NAME_PREFIX_WW TEST_BIN).decrypt_int 0).1 =
      (calculate_md5 md5 NAME_PREFIX_WW TEST_BIN).1.getD 0 0 := by
  have h0 := getD_lt_256 _ hbytes 0
  have h1 := getD_lt_256 _ hbytes 1
  have h2 := getD_lt_256 _ hbytes 2
  have h3 := getD_lt_256 _ hbytes 3
  have hinit : (Version1Context.init md5 NAME_PREFIX_WW TEST_BIN).init_key =
      (((calculate_md5 md5 NAME_PREFIX_WW TEST_BIN).1.getD 0 0 * 256 +
        (calculate_md5 md5 NAME_PREFIX_WW TEST_BIN).1.getD 1 0) * 256 +
        (calculate_md5 md5 NAME_PREFIX_WW TEST_BIN).1.getD 2 0) * 256 +
        (calculate_md5 md5 NAME_PREFIX_WW TEST_BIN).1.getD 3 0 :=
    be32_eq ((calculate_md5 md5 NAME_PREFIX_WW TEST_BIN).1.getD 0 0)
      ((calculate_md5 md5 NAME_PREFIX_WW TEST_BIN).1.getD 1 0)
      ((calculate_md5 md5 NAME_PREFIX_WW TEST_BIN).1.getD 2 0)
      ((calculate_md5 md5 NAME_PREFIX_WW TEST_BIN).1.getD 3 0) h1 h2 h3
  refine ⟨?_, hinit, ?_⟩
  · show ((basenameOf TEST_BIN).length &&& 0x3F) + 1 = 9
    decide
  rw [v1_first_byte _ rfl 0, Nat.zero_xor]
  have hxor : (Version1Context.init md5 NAME_PREFIX_WW TEST_BIN).xor_key =
      (Version1Context.init md5 NAME_PREFIX_WW TEST_BIN).init_key := rfl
  rw [hxor, hinit]
  exact be32_top_byte _ _ _ _ h0 h1 h2 h3

/-- C9 witness: the scenario at the concrete stand-in digest
`sampleDigest`. -/
theorem c9_v1_concrete_scenario_witness :
    (Version1Context.init sampleMd5 NAME_PREFIX_WW TEST_BIN).update_key = 9
  ∧ (Version1Context.init sampleMd5 NAME_PREFIX_WW TEST_BIN).init_key =
      (((calculate_md5 sampleMd5 NAME_PREFIX_WW TEST_BIN).1.getD 0 0 * 256 +
        (calculate_md5 sampleMd5 NAME_PREFIX_WW TEST_BIN).1.getD 1 0) * 256 +
        (calculate_md5 sampleMd5 NAME_PREFIX_WW TEST_BIN).1.getD 2 0) * 256 +
        (calculate_md5 sampleMd5 NAME_PREFIX_WW TEST_BIN).1.getD 3 0
  ∧ ((Version1Context.init sampleMd5 NAME_PREFIX_WW TEST_BIN).decrypt_int 0).1 =
      (calculate_md5 sampleMd5 NAME_PREFIX_WW TEST_BIN).1.getD 0 0 :=
  c9_v1_concrete_scenario sampleMd5 (by decide)

/-! ## C10 — the out-of-range LCG index escapes probing -/

/-- Python `~x & 0xFF` never returns its argument (complementing flips
the low bit). -/
theorem pyNot8_ne (x : Nat) : pyNot8 x ≠ x := by
  show (((-(x : Int) - 1)) % 256).toNat ≠ x
  omega

/-- `getD 0` after `drop n` is `getD n`. -/
theorem getD_drop_zero (l : List Nat) (n : Nat) : (l.drop n).getD 0 0 = l.getD n 0 := by
  induction n generalizing l with
  | zero => rfl
  | succ k ih =>
    cases l with
    | nil => rfl
    | cons a t => exact ih t

/-- A 16-byte probe header whose first three bytes are the complements
of digest bytes 4–6, whose byte 7 is the V4 marker 2, and whose byte 6
is the out-of-range LCG index 4. -/
def c10Header (D : List Nat) : List Nat :=
  [pyNot8 (D.getD 4 0), pyNot8 (D.getD 5 0), pyNot8 (D.getD 6 0),
   12, 0, 0, 4, 2, 0, 0, 0, 0, 0, 0, 0, 0]

/-- On the `c10Header`, the shared V3/V4 header validation passes. -/
theorem c10_test_v3_ok (D : List Nat) : test_v3 (some (c10Header D)) D = .ok () := by
  show (if (c10Header D).length < 16 then
      (Except.error Error.insufficientHeaderData : Except Error Unit)
    else if (c10Header D).getD 0 0 ≠ pyNot8 (D.getD 4 0) ∨
        (c10Header D).getD 1 0 ≠ pyNot8 (D.getD 5 0) ∨
        (c10Header D).getD 2 0 ≠ pyNot8 (D.getD 6 0) then
      Except.error (Error.invalidHeader "3+")
    else Except.ok ()) = Except.ok ()
  rw [if_neg (by norm_num [c10Header]), if_neg (by push_neg; exact ⟨rfl, rfl, rfl⟩)]

/-- No digest's `digest[4:8]` matches the first four bytes of the
`c10Header`: its first byte is the complement of digest byte 4. -/
theorem c10_header_v2_mismatch (D : List Nat) :
    (D.drop 4).take 4 ≠ (c10Header D).take 4 := by
  intro heq
  have htake : (c10Header D).take 4
      = [pyNot8 (D.getD 4 0), pyNot8 (D.getD 5 0), pyNot8 (D.getD 6 0), 12] := rfl
  rw [htake] at heq
  cases hvd : D.drop 4 with
  | nil => rw [hvd] at heq; exact absurd heq (by simp)
  | cons a t =>
    rw [hvd] at heq
    have h0 : a = pyNot8 (D.getD 4 0) := by
      have := congrArg (fun l => l.getD 0 0) heq
      simpa using this
    have h4 : D.getD 4 0 = a := by
      have hh := getD_drop_zero D 4
      rw [hvd] at hh
      simpa using hh.symm
    rw [h4] at h0
    exact pyNot8_ne a h0.symm

/-- On the `c10Header`, `setup_v3` in auto-detect mode reaches
`Version4Context` with LCG index 4 and raises `IndexError`. -/
theorem c10_setup_v3_eval (md5 : List Nat → List Nat) (filename : List Nat) :
    setup_v3 md5 NAME_PREFIX_JP filename (some KEY_TABLES_JP)
      (some (c10Header ((calculate_md5 md5 NAME_PREFIX_JP filename).1))) 0 false 0 true
      = .error .indexError := by
  unfold setup_v3
  simp only [c10_test_v3_ok]
  rfl

/-- On the `c10Header`, the V2 probe candidate fails with the
(ValueError) header-mismatch error. -/
theorem c10_v2_eval (md5 : List Nat → List Nat) (filename : List Nat) :
    Version2Context.init md5 NAME_PREFIX_JP filename
      (some (c10Header ((calculate_md5 md5 NAME_PREFIX_JP filename).1)))
      = .error (.invalidHeader "2") := by
  unfold Version2Context.init
  simp only
  rw [if_pos (c10_header_v2_mismatch ((calculate_md5 md5 NAME_PREFIX_JP filename).1))]

/-- On the `c10Header`, `decrypt_setup` with version 0 propagates the
`IndexError` instead of converting it. -/
theorem c10_decrypt_setup_eval (md5 : List Nat → List Nat) (filename : List Nat) :
    decrypt_setup md5 NAME_PREFIX_JP filename
      (c10Header ((calculate_md5 md5 NAME_PREFIX_JP filename).1)) KEY_TABLES_JP 0
      = .error .indexError := by
  unfold decrypt_setup
  rw [if_neg (by simp [c10Header]), if_pos rfl]
  rw [c10_v2_eval, c10_setup_v3_eval]
  rfl

/-- C10: probing is not total over the error kinds.  For every abstract
MD5 and filename there is a 16-byte header — first three bytes the
complement of digest bytes 4–6, byte 7 equal to 2, byte 6 greater
than 3 — on which `setup_v3` constructs `Version4Context` with an
out-of-range LCG index: the 4-entry parameter table raises `IndexError`,
which is not a `ValueError`, so it escapes both `decrypt_setup`'s and
`decrypt_setup_probe`'s candidate-failure handling instead of becoming
`NoSuitableModeError`. -/
theorem c10_index_error_escapes (md5 : List Nat → List Nat) (filename : List Nat) :
    ∃ header : List Nat,
      header.length = 16
    ∧ header.getD 7 0 = 2
    ∧ 3 < header.getD 6 0
    ∧ setup_v3 md5 NAME_PREFIX_JP filename (some KEY_TABLES_JP) (some header) 0 false 0 true
        = .error .indexError
    ∧ Error.isValueError .indexError = false
    ∧ decrypt_setup md5 NAME_PREFIX_JP filename header KEY_TABLES_JP 0 = .error .indexError
    ∧ decrypt_setup_probe md5 filename header 0 = .error .indexError := by
  refine ⟨c10Header ((calculate_md5 md5 NAME_PREFIX_JP filename).1),
    rfl, rfl, by norm_num [c10Header], c10_setup_v3_eval md5 filename, rfl,
    c10_decrypt_setup_eval md5 filename, ?_⟩
  unfold decrypt_setup_probe COMBINATION probeCombinations
  rw [c10_decrypt_setup_eval]
  rfl

end HonkyPy
